import Mathlib

/-!
Verification of the StreamInd Node.js SDK core against its specification.

The definitions below are a shallow embedding of `src/errors.ts`,
`src/models.ts`, `src/transport.ts` and `src/sdk.ts`:

* JavaScript numbers are modelled as `ℚ` (sizes and counters that are
  always integral are modelled as `ℕ`);
* `Buffer` contents are modelled as `List ℕ` of byte values;
* exceptions are modelled with `Except ErrorCode`;
* methods mutating a `WebSocketTransport` become functions on an explicit
  `TransportState`, with the bytes handed to the underlying `ws.send`
  returned alongside the new state;
* nondeterministic inputs (the random mask key, the random jitter draw,
  the wall clock, the success of an underlying write) are passed in as
  explicit arguments.
-/

namespace StreamInd

/-- Error codes from `src/errors.ts` (`enum ErrorCode`). -/
inductive ErrorCode where
  | OK
  | NOT_INITIALIZED
  | ALREADY_INITIALIZED
  | INVALID_CONFIG
  | NOT_CONNECTED
  | ALREADY_CONNECTED
  | CONNECTION_FAILED
  | CONNECTION_TIMEOUT
  | INVALID_SIGNAL
  | SIGNAL_TOO_LARGE
  | SEND_FAILED
  | INVALID_PARAMETER
  | TERMINAL_NOT_FOUND
  | INTERNAL_ERROR
deriving DecidableEq, Repr

/-- Caller-supplied configuration, `interface Config` in `src/models.ts`.
Optional fields are `Option`-valued (`none` models an absent / `undefined`
field); numeric fields are JavaScript numbers, modelled as `ℚ`. -/
structure Config where
  deviceId : String
  deviceType : String
  endpoint : String
  tenantId : String
  productId : String
  productKey : String
  enableDirectiveReceiving : Option Bool
  connectionTimeoutMs : Option ℚ
  heartbeatIntervalMs : Option ℚ
  maxMessageSize : Option ℚ
  maxReconnectAttempts : Option ℚ
  baseReconnectIntervalMs : Option ℚ
  maxReconnectIntervalMs : Option ℚ
  backoffFactor : Option ℚ
  jitterFactor : Option ℚ
deriving DecidableEq

/-- Fully-populated configuration, `Required<Config>` in `src/models.ts`. -/
structure RequiredConfig where
  deviceId : String
  deviceType : String
  endpoint : String
  tenantId : String
  productId : String
  productKey : String
  enableDirectiveReceiving : Bool
  connectionTimeoutMs : ℚ
  heartbeatIntervalMs : ℚ
  maxMessageSize : ℚ
  maxReconnectAttempts : ℚ
  baseReconnectIntervalMs : ℚ
  maxReconnectIntervalMs : ℚ
  backoffFactor : ℚ
  jitterFactor : ℚ
deriving DecidableEq

/-- `getConfigWithDefaults` from `src/models.ts`: each optional field is
resolved with `??` (nullish coalescing, i.e. `Option.getD`) against its
documented default. -/
def getConfigWithDefaults (config : Config) : RequiredConfig :=
  { deviceId := config.deviceId
    deviceType := config.deviceType
    endpoint := config.endpoint
    tenantId := config.tenantId
    productId := config.productId
    productKey := config.productKey
    enableDirectiveReceiving := config.enableDirectiveReceiving.getD true
    connectionTimeoutMs := config.connectionTimeoutMs.getD 10000
    heartbeatIntervalMs := config.heartbeatIntervalMs.getD 5000
    maxMessageSize := config.maxMessageSize.getD (10 * 1024 * 1024)
    maxReconnectAttempts := config.maxReconnectAttempts.getD (-1)
    baseReconnectIntervalMs := config.baseReconnectIntervalMs.getD 1000
    maxReconnectIntervalMs := config.maxReconnectIntervalMs.getD 60000
    backoffFactor := config.backoffFactor.getD 2
    jitterFactor := config.jitterFactor.getD (1 / 10) }

/-- The five accumulated counters of the private `stats` object of
`WebSocketTransport` in `src/transport.ts`. -/
structure Stats where
  signalsSent : ℕ
  audioSent : ℕ
  directivesReceived : ℕ
  audioReceived : ℕ
  errors : ℕ
deriving DecidableEq

/-- Mutable fields of `WebSocketTransport` (`src/transport.ts`) that the
verified operations read or write.  Timestamps (`lastActivity`,
`connectTime`) are milliseconds since the epoch, modelled as `ℕ`. -/
structure TransportState where
  config : RequiredConfig
  connected : Bool
  reconnectAttempts : ℕ
  lastActivity : ℕ
  shouldReconnect : Bool
  connectTime : ℕ
  stats : Stats
deriving DecidableEq

/-- Field initializers of `WebSocketTransport` together with its
constructor, which stores `getConfigWithDefaults(config)`. -/
def mkTransport (config : Config) : TransportState :=
  { config := getConfigWithDefaults config
    connected := false
    reconnectAttempts := 0
    lastActivity := 0
    shouldReconnect := true
    connectTime := 0
    stats := ⟨0, 0, 0, 0, 0⟩ }

/-- The `Statistics` record returned by `getStatistics`
(`interface Statistics` in `src/models.ts`). -/
structure Statistics where
  signalsSent : ℕ
  audioSent : ℕ
  directivesReceived : ℕ
  audioReceived : ℕ
  errors : ℕ
  connected : Bool
  uptimeSeconds : ℚ
  reconnectAttempts : ℕ
deriving DecidableEq

/-- `WebSocketTransport.getStatistics` (`src/transport.ts` lines 365-380):
uptime is derived on read from the recorded connect time, `now` being
`Date.now()`. -/
def getStatistics (st : TransportState) (now : ℕ) : Statistics :=
  { signalsSent := st.stats.signalsSent
    audioSent := st.stats.audioSent
    directivesReceived := st.stats.directivesReceived
    audioReceived := st.stats.audioReceived
    errors := st.stats.errors
    connected := st.connected
    uptimeSeconds :=
      if st.connected ∧ 0 < st.connectTime then ((now : ℚ) - (st.connectTime : ℚ)) / 1000 else 0
    reconnectAttempts := st.reconnectAttempts }

/-- `WebSocketTransport.resetStatistics` (`src/transport.ts` lines 385-393):
replaces the `stats` object with a fresh all-zero record. -/
def resetStatistics (st : TransportState) : TransportState :=
  { st with stats := ⟨0, 0, 0, 0, 0⟩ }

/-- `WebSocketTransport.sendSignal` (`src/transport.ts` lines 241-276).

The signal enters this method only through the byte length of its
serialized JSON (after source auto-fill), passed here as `jsonLen`
(`Buffer.byteLength(signal.toJSON(), 'utf8')` in the source); the outcome
of the underlying `ws.send` is passed as `writeOk` and the wall clock as
`now`.  The result is the thrown-or-returned outcome, the new transport
state, and the number of writes attempted on the underlying connection. -/
def sendSignal (st : TransportState) (jsonLen : ℕ) (writeOk : Bool) (now : ℕ) :
    Except ErrorCode Unit × TransportState × ℕ :=
  if ¬ st.connected then
    (Except.error ErrorCode.NOT_CONNECTED, st, 0)
  else if st.config.maxMessageSize < (jsonLen : ℚ) then
    (Except.error ErrorCode.SIGNAL_TOO_LARGE, st, 0)
  else if writeOk then
    (Except.ok (),
      { st with lastActivity := now,
                stats := { st.stats with signalsSent := st.stats.signalsSent + 1 } }, 1)
  else
    (Except.error ErrorCode.SEND_FAILED,
      { st with stats := { st.stats with errors := st.stats.errors + 1 } }, 1)

/-- ASCII-range behaviour of JavaScript `String.prototype.toUpperCase` on a
single character code: lower-case letters are shifted to upper case, every
other ASCII code is unchanged.  (The model is only used for tags whose
character codes are ASCII, matching the documented "7-byte ASCII" tag.) -/
def asciiUpper (c : ℕ) : ℕ :=
  if 97 ≤ c ∧ c ≤ 122 then c - 32 else c

/-- Character codes of a string, used to write concrete tags such as
`"opus"` as byte lists. -/
def asciiCodes (s : String) : List ℕ :=
  s.toList.map Char.toNat

/-- Bytes 3-9 of the binary frame (`src/transport.ts` lines 315-321):
`dataType.toUpperCase().substring(0, 7)` written into a zero-filled
7-byte buffer, i.e. upper-cased, truncated to 7 characters and
right-padded with `0x00` to exactly 7 bytes. -/
def dataTypeBytes (dataType : List ℕ) : List ℕ :=
  let upper := (dataType.map asciiUpper).take 7
  upper ++ List.replicate (7 - upper.length) 0

/-- Bytes 14+ of the binary frame (`src/transport.ts` lines 330-334):
each payload byte XOR-ed with `maskKey[i % 4]`. -/
def maskedPayload (data maskKey : List ℕ) : List ℕ :=
  (List.range data.length).map fun i => (data.getD i 0) ^^^ (maskKey.getD (i % 4) 0)

/-- The `try`-block body of `WebSocketTransport.sendBinaryData`
(`src/transport.ts` lines 299-337) up to the `ws.send` call: the
application-layer frame built in `protocolData`, or the
`SIGNAL_TOO_LARGE` error thrown when the payload exceeds 65535 bytes.
`maskKey` is the 4-byte random key drawn at lines 324-328; the length
bytes use `% 256` for the source's `& 0xFF`. -/
def buildFrame (data dataType maskKey : List ℕ) : Except ErrorCode (List ℕ) :=
  if 65535 < data.length then
    Except.error ErrorCode.SIGNAL_TOO_LARGE
  else
    Except.ok ([0x82, (data.length >>> 8) % 256, data.length % 256]
      ++ dataTypeBytes dataType
      ++ maskKey
      ++ maskedPayload data maskKey)

/-- XOR-decoding of an encoded frame exactly as the claimed round trip
describes it: each byte of the payload section (offset 14 onward) is
XOR-ed with the mask key embedded at bytes 10-13 of the same frame. -/
def unmaskPayload (frame : List ℕ) : List ℕ :=
  (List.range (frame.length - 14)).map fun i =>
    (frame.getD (14 + i) 0) ^^^ (frame.getD (10 + i % 4) 0)

/-- `WebSocketTransport.sendBinaryData` (`src/transport.ts` lines 294-350).

The `NOT_CONNECTED` check precedes the `try` block and escapes unchanged;
every error raised inside the `try` block — including the
`SIGNAL_TOO_LARGE` thrown for an oversized payload and a failing
underlying write — is caught by the `catch` block, which increments the
error counter and re-throws `SEND_FAILED`.  The last component of the
result lists the frames handed to the underlying `ws.send`. -/
def sendBinaryData (st : TransportState) (data dataType maskKey : List ℕ)
    (writeOk : Bool) (now : ℕ) :
    Except ErrorCode Unit × TransportState × List (List ℕ) :=
  if ¬ st.connected then
    (Except.error ErrorCode.NOT_CONNECTED, st, [])
  else
    match buildFrame data dataType maskKey with
    | Except.error _ =>
        (Except.error ErrorCode.SEND_FAILED,
          { st with stats := { st.stats with errors := st.stats.errors + 1 } }, [])
    | Except.ok frame =>
        if writeOk then
          (Except.ok (),
            { st with lastActivity := now,
                      stats := { st.stats with audioSent := st.stats.audioSent + 1 } }, [frame])
        else
          (Except.error ErrorCode.SEND_FAILED,
            { st with stats := { st.stats with errors := st.stats.errors + 1 } }, [frame])

/-- The pre-jitter delay of `WebSocketTransport.calculateBackoffDelay`
(`src/transport.ts` lines 559-560): `min(base * factor ^ attempts, maxDelay)`. -/
def preJitterDelay (base factor maxDelay : ℚ) (attempts : ℕ) : ℚ :=
  min (base * factor ^ attempts) maxDelay

/-- `WebSocketTransport.calculateBackoffDelay` (`src/transport.ts`
lines 552-567).  The jitter draw `Math.random() * 2 - 1` is passed in as
`u ∈ [-1, 1]`; the result is `max(0, delay + delay * jitterFactor * u)`. -/
def calculateBackoffDelay (st : TransportState) (u : ℚ) : ℚ :=
  let delay := preJitterDelay st.config.baseReconnectIntervalMs st.config.backoffFactor
    st.config.maxReconnectIntervalMs st.reconnectAttempts
  max 0 (delay + delay * st.config.jitterFactor * u)

/-- One registry entry, `interface Terminal` in `src/sdk.ts`: the
caller-supplied config together with the transport constructed from it. -/
structure Terminal where
  config : Config
  transport : TransportState
deriving DecidableEq

/-- Mutable fields of `class SDK` in `src/sdk.ts` that registration
touches: the `terminals` map (an insertion-ordered association list, like
a JavaScript `Map`) and the `lastError` string. -/
structure SDKState where
  terminals : List (String × Terminal)
  lastError : String
deriving DecidableEq

/-- `SDK.registerTerminal` (`src/sdk.ts` lines 53-88): a duplicate id sets
`lastError` and returns `ALREADY_INITIALIZED`; otherwise a fresh transport
is constructed and the pair is inserted.  (Installing wrapped global
callbacks on the fresh transport has no effect on the modelled state.) -/
def registerTerminal (s : SDKState) (terminalId : String) (config : Config) :
    ErrorCode × SDKState :=
  match s.terminals.lookup terminalId with
  | some _ =>
      (ErrorCode.ALREADY_INITIALIZED,
        { s with lastError := "Terminal " ++ terminalId ++ " already registered" })
  | none =>
      (ErrorCode.OK,
        { s with terminals := s.terminals ++ [(terminalId, ⟨config, mkTransport config⟩)] })

/-- Parsed JSON values, the result of `JSON.parse` on an inbound text
frame.  Numbers are modelled as `ℚ`. -/
inductive JsonValue where
  | null : JsonValue
  | bool (b : Bool) : JsonValue
  | num (q : ℚ) : JsonValue
  | str (s : String) : JsonValue
  | arr (elems : List JsonValue) : JsonValue
  | obj (fields : List (String × JsonValue)) : JsonValue

/-- JavaScript truthiness of a parsed JSON value (`undefined` is handled
separately, as `Option.none`, by the callers). -/
def jsTruthy : JsonValue → Bool
  | JsonValue.null => false
  | JsonValue.bool b => b
  | JsonValue.num q => q ≠ 0
  | JsonValue.str s => s ≠ ""
  | JsonValue.arr _ => true
  | JsonValue.obj _ => true

/-- Property access `v[key]` on a parsed JSON value: a `none` result
models `undefined`.  (Index and method properties of primitives are
outside the modelled domain.) -/
def jsonObjGet (v : JsonValue) (key : String) : Option JsonValue :=
  match v with
  | JsonValue.obj fields => fields.lookup key
  | _ => none

mutual

/-- JavaScript `String(value)` conversion on a parsed JSON value, as used
by `parseInt(String(value), 10)` in `Directive.getIntParameter`
(`src/models.ts` line 322).  Non-integral number rendering (JavaScript
prints shortest-round-trip decimals) is outside the modelled domain —
the accessors reach this function only for non-number values. -/
def jsToString : JsonValue → String
  | JsonValue.null => "null"
  | JsonValue.bool b => cond b "true" "false"
  | JsonValue.num q => if q.den = 1 then toString q.num else toString q
  | JsonValue.str s => s
  | JsonValue.arr xs => jsToStringList xs
  | JsonValue.obj _ => "[object Object]"

/-- `Array.prototype.toString`: elements joined with commas, `null`
rendering as the empty string. -/
def jsToStringList : List JsonValue → String
  | [] => ""
  | [x] => jsToStringElem x
  | x :: xs => jsToStringElem x ++ "," ++ jsToStringList xs

/-- One element of an array under `Array.prototype.join`. -/
def jsToStringElem : JsonValue → String
  | JsonValue.null => ""
  | v => jsToString v

end

/-- Fold a list of decimal digit characters into the number they denote. -/
def digitsToNat (cs : List Char) : ℕ :=
  cs.foldl (fun acc c => acc * 10 + (c.toNat - 48)) 0

/-- JavaScript `parseInt(s, 10)`: skip leading whitespace, read an
optional sign and then a maximal prefix of decimal digits; `none` models
the `NaN` result when no digit is found. -/
def parseIntPrefix (s : String) : Option ℤ :=
  let cs := s.toList.dropWhile fun c => c == ' ' || c == '\t' || c == '\n' || c == '\r'
  let signAndRest : ℤ × List Char :=
    match cs with
    | '-' :: rest => (-1, rest)
    | '+' :: rest => (1, rest)
    | _ => (1, cs)
  let digits := signAndRest.2.takeWhile Char.isDigit
  if digits.isEmpty then none else some (signAndRest.1 * (digitsToNat digits : ℤ))

/-- `class Directive` in `src/models.ts`: identifier, name, construction
timestamp and the flat parameter mapping. -/
structure Directive where
  id : String
  name : String
  timestamp : String
  parameters : List (String × JsonValue)

/-- `Directive.fromJSON` (`src/models.ts` lines 369-388), applied to the
already-parsed JSON value of the inbound frame.  `reparse` stands for the
inner `JSON.parse` used when the `parameters` field arrives as a
JSON-encoded string (`none` models a parse failure, which the source maps
to `{}`); `nowIso` is the `new Date().toISOString()` stamped by the
constructor.  A non-object `parameters` value exposes no keyed
parameters, and non-string `id`/`name` values are outside the modelled
domain (the source would store them untyped). -/
def Directive.fromJSON (reparse : String → Option JsonValue) (nowIso : String)
    (data : JsonValue) : Directive :=
  let params0 : JsonValue :=
    match jsonObjGet data "parameters" with
    | some v => if jsTruthy v then v else JsonValue.obj []
    | none => JsonValue.obj []
  let params1 : JsonValue :=
    match params0 with
    | JsonValue.str s =>
        match reparse s with
        | some v => v
        | none => JsonValue.obj []
    | v => v
  let fields : List (String × JsonValue) :=
    match params1 with
    | JsonValue.obj fs => fs
    | _ => []
  let idStr : String :=
    match jsonObjGet data "id" with
    | some (JsonValue.str s) => s
    | _ => ""
  let nameStr : String :=
    match jsonObjGet data "name" with
    | some (JsonValue.str s) => s
    | _ => ""
  { id := idStr, name := nameStr, timestamp := nowIso, parameters := fields }

/-- `Directive.getIntParameter` (`src/models.ts` lines 319-324): numbers
are floored; any other present value goes through
`parseInt(String(value), 10)` with the supplied default on `NaN`; an
absent key yields `parseInt("undefined")`, i.e. the default. -/
def Directive.getIntParameter (d : Directive) (key : String) (defaultValue : ℤ) : ℤ :=
  match d.parameters.lookup key with
  | some (JsonValue.num q) => ⌊q⌋
  | some v =>
      match parseIntPrefix (jsToString v) with
      | some n => n
      | none => defaultValue
  | none => defaultValue

/-- `Directive.getBoolParameter` (`src/models.ts` lines 339-345): booleans
pass through; the strict comparisons `value === 'true'` / `=== 'false'`
match exactly those two strings; everything else yields the default. -/
def Directive.getBoolParameter (d : Directive) (key : String) (defaultValue : Bool) : Bool :=
  match d.parameters.lookup key with
  | some (JsonValue.bool b) => b
  | some (JsonValue.str s) =>
      if s = "true" then true else if s = "false" then false else defaultValue
  | _ => defaultValue

/-- The parsed form of the directive JSON
`{"id":"d1","name":"motor.move","parameters":{"speed":"42","enabled":"true"}}`. -/
def sampleDirectiveJson : JsonValue :=
  JsonValue.obj
    [("id", JsonValue.str "d1"),
     ("name", JsonValue.str "motor.move"),
     ("parameters",
        JsonValue.obj [("speed", JsonValue.str "42"), ("enabled", JsonValue.str "true")])]

/-! ### Theorems -/

/-- Helper: a lower bound satisfied by every present value and by the
default is satisfied by `Option.getD`. -/
theorem optionGetD_bound {o : Option ℚ} {c d : ℚ} (h : ∀ x ∈ o, c ≤ x) (hd : c ≤ d) :
    c ≤ o.getD d := by
  cases o with
  | none => simpa using hd
  | some x => simpa using h x rfl

/-- C10: `resetStatistics` zeroes exactly the five accumulated counters
and changes nothing else — the connected flag, the reconnect-attempt
count, the recorded connect time, and hence the `uptimeSeconds` reported
by `getStatistics` at any instant, are identical before and after the
call. -/
theorem resetStatistics_only_clears_counters (st : TransportState) (now : ℕ) :
    (resetStatistics st).stats = ⟨0, 0, 0, 0, 0⟩ ∧
    (resetStatistics st).connected = st.connected ∧
    (resetStatistics st).reconnectAttempts = st.reconnectAttempts ∧
    (resetStatistics st).connectTime = st.connectTime ∧
    (resetStatistics st).lastActivity = st.lastActivity ∧
    (resetStatistics st).shouldReconnect = st.shouldReconnect ∧
    (resetStatistics st).config = st.config ∧
    (getStatistics (resetStatistics st) now).connected = (getStatistics st now).connected ∧
    (getStatistics (resetStatistics st) now).reconnectAttempts
      = (getStatistics st now).reconnectAttempts ∧
    (getStatistics (resetStatistics st) now).uptimeSeconds
      = (getStatistics st now).uptimeSeconds ∧
    (getStatistics (resetStatistics st) now).signalsSent = 0 ∧
    (getStatistics (resetStatistics st) now).audioSent = 0 ∧
    (getStatistics (resetStatistics st) now).directivesReceived = 0 ∧
    (getStatistics (resetStatistics st) now).audioReceived = 0 ∧
    (getStatistics (resetStatistics st) now).errors = 0 := by
  refine ⟨rfl, rfl, rfl, rfl, rfl, rfl, rfl, rfl, rfl, ?_, rfl, rfl, rfl, rfl, rfl⟩
  simp [getStatistics, resetStatistics]

/-- C7: calling `registerTerminal` with an id that is already present
returns `ALREADY_INITIALIZED` and leaves the terminal map unchanged — in
particular the originally registered pair for that id is untouched and no
terminal is added or removed. -/
theorem registerTerminal_duplicate_rejected (s : SDKState) (terminalId : String)
    (config : Config) (h : (s.terminals.lookup terminalId).isSome) :
    (registerTerminal s terminalId config).1 = ErrorCode.ALREADY_INITIALIZED ∧
    (registerTerminal s terminalId config).2.terminals = s.terminals := by
  unfold registerTerminal
  cases hl : s.terminals.lookup terminalId with
  | none => rw [hl] at h; simp at h
  | some t => exact ⟨rfl, rfl⟩

/-- Witness for the duplicate-registration theorem at a concrete
registry holding one terminal. -/
theorem registerTerminal_duplicate_rejected_witness :
    (registerTerminal
        ((registerTerminal ⟨[], ""⟩ "t1"
            ⟨"d", "t", "e", "ten", "p", "k", none, none, none, none, none, none, none,
              none, none⟩).2) "t1"
        ⟨"d2", "t2", "e2", "ten2", "p2", "k2", none, none, none, none, none, none, none,
          none, none⟩).1 = ErrorCode.ALREADY_INITIALIZED := by
  exact (registerTerminal_duplicate_rejected _ "t1" _ (by simp [registerTerminal])).1

/-- C9 counterexample: `getConfigWithDefaults` performs no validation, so
a caller-supplied backoff factor below 1 survives into the resolved
configuration, violating the claimed invariant. -/
theorem getConfigWithDefaults_no_validation :
    (getConfigWithDefaults
        ⟨"d", "t", "e", "ten", "p", "k", none, none, none, none, none, none, none,
          some (1 / 2), none⟩).backoffFactor < 1 := by
  norm_num [getConfigWithDefaults]

/-- C9 amended: whenever the supplied numeric tunables are in range —
each supplied value non-negative and a supplied backoff factor at least 1
(absent fields always are, since the defaults are in range) — the
resolved configuration satisfies the invariant: every numeric tunable is
non-negative and the backoff factor is at least 1.  (Finiteness is
inherent in the rational-number model, and `getConfigWithDefaults` is a
pure function of its argument by construction.) -/
theorem getConfigWithDefaults_invariant (config : Config)
    (h1 : ∀ x ∈ config.connectionTimeoutMs, 0 ≤ x)
    (h2 : ∀ x ∈ config.heartbeatIntervalMs, 0 ≤ x)
    (h3 : ∀ x ∈ config.maxMessageSize, 0 ≤ x)
    (h4 : ∀ x ∈ config.baseReconnectIntervalMs, 0 ≤ x)
    (h5 : ∀ x ∈ config.maxReconnectIntervalMs, 0 ≤ x)
    (h6 : ∀ x ∈ config.backoffFactor, 1 ≤ x)
    (h7 : ∀ x ∈ config.jitterFactor, 0 ≤ x) :
    0 ≤ (getConfigWithDefaults config).connectionTimeoutMs ∧
    0 ≤ (getConfigWithDefaults config).heartbeatIntervalMs ∧
    0 ≤ (getConfigWithDefaults config).maxMessageSize ∧
    0 ≤ (getConfigWithDefaults config).baseReconnectIntervalMs ∧
    0 ≤ (getConfigWithDefaults config).maxReconnectIntervalMs ∧
    1 ≤ (getConfigWithDefaults config).backoffFactor ∧
    0 ≤ (getConfigWithDefaults config).jitterFactor := by
  refine ⟨?_, ?_, ?_, ?_, ?_, ?_, ?_⟩ <;>
    simp only [getConfigWithDefaults]
  · exact optionGetD_bound h1 (by norm_num)
  · exact optionGetD_bound h2 (by norm_num)
  · exact optionGetD_bound h3 (by norm_num)
  · exact optionGetD_bound h4 (by norm_num)
  · exact optionGetD_bound h5 (by norm_num)
  · exact optionGetD_bound h6 (by norm_num)
  · exact optionGetD_bound h7 (by norm_num)

/-- Witness for the amended configuration invariant at a concrete config
leaving every optional field absent. -/
theorem getConfigWithDefaults_invariant_witness :
    1 ≤ (getConfigWithDefaults
        ⟨"d", "t", "e", "ten", "p", "k", none, none, none, none, none, none, none, none,
          none⟩).backoffFactor ∧
    0 ≤ (getConfigWithDefaults
        ⟨"d", "t", "e", "ten", "p", "k", none, none, none, none, none, none, none, none,
          none⟩).jitterFactor :=
  ⟨(getConfigWithDefaults_invariant _ (by simp) (by simp) (by simp) (by simp) (by simp)
      (by simp) (by simp)).2.2.2.2.2.1,
   (getConfigWithDefaults_invariant _ (by simp) (by simp) (by simp) (by simp) (by simp)
      (by simp) (by simp)).2.2.2.2.2.2⟩

/-- A minimal configuration with every optional field absent. -/
def sampleConfig : Config :=
  ⟨"d", "t", "e", "ten", "p", "k", none, none, none, none, none, none, none, none, none⟩

/-- A transport on `sampleConfig` in the `Connected` state. -/
def connectedTransport : TransportState :=
  { mkTransport sampleConfig with connected := true }

/-- Helper: on a connected transport, any payload longer than 65535 bytes
makes `sendBinaryData` take the `catch` path — the error counter is
incremented, nothing is handed to the connection, and the surfaced error
is `SEND_FAILED`. -/
theorem sendBinaryData_oversized (st : TransportState) (data dataType maskKey : List ℕ)
    (writeOk : Bool) (now : ℕ) (hconn : st.connected = true)
    (hbig : 65535 < data.length) :
    sendBinaryData st data dataType maskKey writeOk now
      = (Except.error ErrorCode.SEND_FAILED,
         { st with stats := { st.stats with errors := st.stats.errors + 1 } }, []) := by
  simp [sendBinaryData, buildFrame, hconn, hbig]

/-- C2 divergence: on a connected transport, a 65536-byte payload makes
`sendBinaryData` fail with `SEND_FAILED`, not `SIGNAL_TOO_LARGE` — the
`SIGNAL_TOO_LARGE` thrown inside the `try` block is caught by the generic
`catch`, which increments the error counter and re-throws `SEND_FAILED`.
No bytes are handed to the underlying connection. -/
theorem oversized_binary_payload_wraps_error :
    (sendBinaryData connectedTransport (List.replicate 65536 0) (asciiCodes "opus")
        [0, 0, 0, 0] true 0).1 = Except.error ErrorCode.SEND_FAILED ∧
    (sendBinaryData connectedTransport (List.replicate 65536 0) (asciiCodes "opus")
        [0, 0, 0, 0] true 0).1 ≠ Except.error ErrorCode.SIGNAL_TOO_LARGE ∧
    (sendBinaryData connectedTransport (List.replicate 65536 0) (asciiCodes "opus")
        [0, 0, 0, 0] true 0).2.2 = [] ∧
    (sendBinaryData connectedTransport (List.replicate 65536 0) (asciiCodes "opus")
        [0, 0, 0, 0] true 0).2.1.stats.errors = connectedTransport.stats.errors + 1 := by
  have h := sendBinaryData_oversized connectedTransport (List.replicate 65536 0)
    (asciiCodes "opus") [0, 0, 0, 0] true 0 rfl
    (by rw [List.length_replicate]; norm_num)
  rw [h]
  refine ⟨rfl, by simp, rfl, rfl⟩

/-- C6: on a connected transport, a signal whose serialized JSON exceeds
`maxMessageSize` bytes makes `sendSignal` fail with `SIGNAL_TOO_LARGE`,
with no write attempted on the underlying connection and the transport
state — in particular the `signalsSent` counter — unchanged. -/
theorem oversized_signal_rejected (st : TransportState) (jsonLen : ℕ) (writeOk : Bool)
    (now : ℕ) (hconn : st.connected = true)
    (hbig : st.config.maxMessageSize < (jsonLen : ℚ)) :
    sendSignal st jsonLen writeOk now = (Except.error ErrorCode.SIGNAL_TOO_LARGE, st, 0) := by
  simp [sendSignal, hconn, hbig]

/-- Witness for the oversized-signal theorem: one byte above the default
10 MiB limit. -/
theorem oversized_signal_rejected_witness :
    sendSignal connectedTransport 10485761 true 0
      = (Except.error ErrorCode.SIGNAL_TOO_LARGE, connectedTransport, 0) :=
  oversized_signal_rejected connectedTransport 10485761 true 0 rfl
    (by norm_num [connectedTransport, mkTransport, getConfigWithDefaults, sampleConfig])

/-- C4: with `base ≥ 0`, `factor ≥ 1` and `maxDelay ≥ 0`, the pre-jitter
backoff delay `min(base * factor ^ attempts, maxDelay)` is non-decreasing
in the attempt count and never exceeds `maxDelay`. -/
theorem backoff_pre_jitter_monotone_bounded (base factor maxDelay : ℚ)
    (hb : 0 ≤ base) (hf : 1 ≤ factor) (hm : 0 ≤ maxDelay) :
    (∀ a b : ℕ, a ≤ b →
        preJitterDelay base factor maxDelay a ≤ preJitterDelay base factor maxDelay b) ∧
    (∀ a : ℕ, preJitterDelay base factor maxDelay a ≤ maxDelay) := by
  refine ⟨fun a b hab => ?_, fun a => min_le_right _ _⟩
  exact min_le_min (mul_le_mul_of_nonneg_left (pow_le_pow_right₀ hf hab) hb) le_rfl

/-- Witness for the backoff monotonicity and bound at the default
configuration values. -/
theorem backoff_pre_jitter_monotone_bounded_witness :
    preJitterDelay 1000 2 60000 2 ≤ preJitterDelay 1000 2 60000 3 ∧
    preJitterDelay 1000 2 60000 3 ≤ 60000 :=
  ⟨(backoff_pre_jitter_monotone_bounded 1000 2 60000 (by norm_num) (by norm_num)
      (by norm_num)).1 2 3 (by norm_num),
   (backoff_pre_jitter_monotone_bounded 1000 2 60000 (by norm_num) (by norm_num)
      (by norm_num)).2 3⟩

/-- Unfolding equation for `calculateBackoffDelay`. -/
theorem calculateBackoffDelay_eq (st : TransportState) (u : ℚ) :
    calculateBackoffDelay st u =
      max 0 (preJitterDelay st.config.baseReconnectIntervalMs st.config.backoffFactor
          st.config.maxReconnectIntervalMs st.reconnectAttempts
        + preJitterDelay st.config.baseReconnectIntervalMs st.config.backoffFactor
            st.config.maxReconnectIntervalMs st.reconnectAttempts
          * st.config.jitterFactor * u) := rfl

/-- A transport whose pre-jitter exponential delay exceeds the configured
maximum: base 100, factor 2, max delay 50, jitter 1/10, zero attempts. -/
def jitterSampleState : TransportState :=
  mkTransport
    ⟨"d", "t", "e", "ten", "p", "k", none, none, none, none, none, some 100, some 50,
      some 2, some (1 / 10)⟩

/-- C5 counterexample: at base 100, factor 2, max delay 50, jitter 1/10,
0 attempts and jitter draw u = -1 — all satisfying the claim's
preconditions — the returned delay is 45, strictly below the claimed
interval `base*factor^attempts*(1 ± jitter)` (lower endpoint 90) even
after clamping that interval into `[0, maxDelay*(1 + jitter)] = [0, 55]`
(clamped lower endpoint 55). -/
theorem backoff_jitter_claim_counterexample :
    calculateBackoffDelay jitterSampleState (-1) = 45 ∧
    calculateBackoffDelay jitterSampleState (-1) <
      max 0 (min
        (jitterSampleState.config.baseReconnectIntervalMs
            * jitterSampleState.config.backoffFactor ^ jitterSampleState.reconnectAttempts
            * (1 - jitterSampleState.config.jitterFactor))
        (jitterSampleState.config.maxReconnectIntervalMs
            * (1 + jitterSampleState.config.jitterFactor))) ∧
    0 ≤ jitterSampleState.config.baseReconnectIntervalMs ∧
    1 ≤ jitterSampleState.config.backoffFactor ∧
    0 ≤ jitterSampleState.config.maxReconnectIntervalMs ∧
    0 ≤ jitterSampleState.config.jitterFactor ∧
    -1 ≤ (-1 : ℚ) ∧ (-1 : ℚ) ≤ 1 := by
  refine ⟨?_, ?_, ?_, ?_, ?_, ?_, ?_, ?_⟩ <;>
    norm_num [calculateBackoffDelay_eq, preJitterDelay, jitterSampleState, mkTransport,
      getConfigWithDefaults]

/-- C5 amended: letting `d = min(base*factor^attempts, maxDelay)` (the
pre-jitter delay), the jittered delay lies within `d*(1 ± jitterFactor)`
clamped below at 0, and hence never exceeds
`maxDelay*(1 + jitterFactor)`. -/
theorem backoff_jittered_delay_bounds (st : TransportState) (u : ℚ)
    (hb : 0 ≤ st.config.baseReconnectIntervalMs)
    (hf : 1 ≤ st.config.backoffFactor)
    (hm : 0 ≤ st.config.maxReconnectIntervalMs)
    (hj : 0 ≤ st.config.jitterFactor)
    (hu1 : -1 ≤ u) (hu2 : u ≤ 1) :
    max 0 (preJitterDelay st.config.baseReconnectIntervalMs st.config.backoffFactor
        st.config.maxReconnectIntervalMs st.reconnectAttempts
        * (1 - st.config.jitterFactor)) ≤ calculateBackoffDelay st u ∧
    calculateBackoffDelay st u ≤
      preJitterDelay st.config.baseReconnectIntervalMs st.config.backoffFactor
        st.config.maxReconnectIntervalMs st.reconnectAttempts
        * (1 + st.config.jitterFactor) ∧
    calculateBackoffDelay st u ≤
      st.config.maxReconnectIntervalMs * (1 + st.config.jitterFactor) := by
  rw [calculateBackoffDelay_eq]
  set D := preJitterDelay st.config.baseReconnectIntervalMs st.config.backoffFactor
    st.config.maxReconnectIntervalMs st.reconnectAttempts with hD
  set j := st.config.jitterFactor with hj'
  have hd : 0 ≤ D := le_min (mul_nonneg hb (pow_nonneg (le_trans zero_le_one hf) _)) hm
  have hdm : D ≤ st.config.maxReconnectIntervalMs := min_le_right _ _
  have hdj : 0 ≤ D * j := mul_nonneg hd hj
  have key1 : D * (1 - j) ≤ D + D * j * u := by nlinarith [mul_nonneg hdj (by linarith : (0:ℚ) ≤ u + 1)]
  have key2 : D + D * j * u ≤ D * (1 + j) := by nlinarith [mul_nonneg hdj (by linarith : (0:ℚ) ≤ 1 - u)]
  have hup : 0 ≤ D * (1 + j) := mul_nonneg hd (by linarith)
  refine ⟨max_le_max le_rfl key1, max_le hup key2, ?_⟩
  exact le_trans (max_le hup key2) (mul_le_mul_of_nonneg_right hdm (by linarith))

/-- Witness for the jittered-delay bounds at the default configuration
with jitter draw 0. -/
theorem backoff_jittered_delay_bounds_witness :
    max 0 ((1000 : ℚ) * (1 - 1 / 10)) ≤ calculateBackoffDelay connectedTransport 0 ∧
    calculateBackoffDelay connectedTransport 0 ≤ (1000 : ℚ) * (1 + 1 / 10) ∧
    calculateBackoffDelay connectedTransport 0 ≤ (60000 : ℚ) * (1 + 1 / 10) := by
  have h := backoff_jittered_delay_bounds connectedTransport 0
    (by norm_num [connectedTransport, mkTransport, getConfigWithDefaults, sampleConfig])
    (by norm_num [connectedTransport, mkTransport, getConfigWithDefaults, sampleConfig])
    (by norm_num [connectedTransport, mkTransport, getConfigWithDefaults, sampleConfig])
    (by norm_num [connectedTransport, mkTransport, getConfigWithDefaults, sampleConfig])
    (by norm_num) (by norm_num)
  simpa [connectedTransport, mkTransport, getConfigWithDefaults, sampleConfig,
    preJitterDelay] using h

/-- Helper: `parseInt` yields `NaN` on the strings produced by the
non-coercible JSON values. -/
theorem parseIntPrefix_stuck :
    parseIntPrefix "true" = none ∧ parseIntPrefix "false" = none ∧
    parseIntPrefix "null" = none ∧ parseIntPrefix "[object Object]" = none :=
  ⟨rfl, rfl, rfl, rfl⟩

/-- C8: decoding
`{"id":"d1","name":"motor.move","parameters":{"speed":"42","enabled":"true"}}`
yields a directive with `getIntParameter "speed" 0 = 42` and
`getBoolParameter "enabled" false = true`; in general, string-typed
values coerce through the typed accessors (via `parseInt` for integers
and the exact strings `"true"` / `"false"` for booleans), and on type
mismatch or absence the accessors return the supplied default. -/
theorem directive_decode_coercion :
    (∀ (reparse : String → Option JsonValue) (nowIso : String),
      Directive.fromJSON reparse nowIso sampleDirectiveJson =
        ⟨"d1", "motor.move", nowIso,
          [("speed", JsonValue.str "42"), ("enabled", JsonValue.str "true")]⟩) ∧
    (∀ (reparse : String → Option JsonValue) (nowIso : String),
      (Directive.fromJSON reparse nowIso sampleDirectiveJson).getIntParameter "speed" 0 = 42 ∧
      (Directive.fromJSON reparse nowIso sampleDirectiveJson).getBoolParameter "enabled"
        false = true) ∧
    (∀ (d : Directive) (key s : String) (dflt n : ℤ),
      d.parameters.lookup key = some (JsonValue.str s) → parseIntPrefix s = some n →
      d.getIntParameter key dflt = n) ∧
    (∀ (d : Directive) (key s : String) (dflt : ℤ),
      d.parameters.lookup key = some (JsonValue.str s) → parseIntPrefix s = none →
      d.getIntParameter key dflt = dflt) ∧
    (∀ (d : Directive) (key : String) (dflt : ℤ),
      d.parameters.lookup key = none → d.getIntParameter key dflt = dflt) ∧
    (∀ (d : Directive) (key : String) (dflt : ℤ) (v : JsonValue),
      d.parameters.lookup key = some v → (∀ q, v ≠ JsonValue.num q) →
      parseIntPrefix (jsToString v) = none → d.getIntParameter key dflt = dflt) ∧
    (∀ (d : Directive) (key : String) (dflt : ℤ) (b : Bool),
      d.parameters.lookup key = some (JsonValue.bool b) →
      d.getIntParameter key dflt = dflt) ∧
    (∀ (d : Directive) (key : String) (dflt : Bool),
      d.parameters.lookup key = some (JsonValue.str "true") →
      d.getBoolParameter key dflt = true) ∧
    (∀ (d : Directive) (key : String) (dflt : Bool),
      d.parameters.lookup key = some (JsonValue.str "false") →
      d.getBoolParameter key dflt = false) ∧
    (∀ (d : Directive) (key s : String) (dflt : Bool),
      d.parameters.lookup key = some (JsonValue.str s) → s ≠ "true" → s ≠ "false" →
      d.getBoolParameter key dflt = dflt) ∧
    (∀ (d : Directive) (key : String) (dflt : Bool),
      d.parameters.lookup key = none → d.getBoolParameter key dflt = dflt) ∧
    (∀ (d : Directive) (key : String) (dflt : Bool) (v : JsonValue),
      d.parameters.lookup key = some v → (∀ b, v ≠ JsonValue.bool b) →
      (∀ s, v ≠ JsonValue.str s) → d.getBoolParameter key dflt = dflt) := by
  refine ⟨fun reparse nowIso => rfl, fun reparse nowIso => ⟨?_, ?_⟩, ?_, ?_, ?_, ?_, ?_,
    ?_, ?_, ?_, ?_, ?_⟩
  · have hd : Directive.fromJSON reparse nowIso sampleDirectiveJson =
        ⟨"d1", "motor.move", nowIso,
          [("speed", JsonValue.str "42"), ("enabled", JsonValue.str "true")]⟩ := rfl
    rw [hd]
    simp [Directive.getIntParameter, jsToString, parseIntPrefix, digitsToNat]
  · have hd : Directive.fromJSON reparse nowIso sampleDirectiveJson =
        ⟨"d1", "motor.move", nowIso,
          [("speed", JsonValue.str "42"), ("enabled", JsonValue.str "true")]⟩ := rfl
    rw [hd]
    simp [Directive.getBoolParameter, List.lookup]
  · intro d key s dflt n hs hp
    simp [Directive.getIntParameter, hs, jsToString, hp]
  · intro d key s dflt hs hp
    simp [Directive.getIntParameter, hs, jsToString, hp]
  · intro d key dflt h
    simp [Directive.getIntParameter, h]
  · intro d key dflt v hv hne hp
    cases v with
    | num q => exact absurd rfl (hne q)
    | null => simp [Directive.getIntParameter, hv, hp]
    | bool b => simp [Directive.getIntParameter, hv, hp]
    | str s => simp [Directive.getIntParameter, hv, hp]
    | arr xs => simp [Directive.getIntParameter, hv, hp]
    | obj fs => simp [Directive.getIntParameter, hv, hp]
  · intro d key dflt b h
    cases b <;> simp [Directive.getIntParameter, h, jsToString, parseIntPrefix]
  · intro d key dflt h
    simp [Directive.getBoolParameter, h]
  · intro d key dflt h
    simp [Directive.getBoolParameter, h]
  · intro d key s dflt hs h1 h2
    simp [Directive.getBoolParameter, hs, h1, h2]
  · intro d key dflt h
    simp [Directive.getBoolParameter, h]
  · intro d key dflt v hv hb hs
    cases v with
    | bool b => exact absurd rfl (hb b)
    | str s => exact absurd rfl (hs s)
    | null => simp [Directive.getBoolParameter, hv]
    | num q => simp [Directive.getBoolParameter, hv]
    | arr xs => simp [Directive.getBoolParameter, hv]
    | obj fs => simp [Directive.getBoolParameter, hv]

/-- Witness for the directive decode-and-coercion theorem at the sample
directive JSON, with an arbitrary inner parser and timestamp. -/
theorem directive_decode_coercion_witness :
    (Directive.fromJSON (fun _ => none) "t0" sampleDirectiveJson).getIntParameter
      "speed" 0 = 42 ∧
    (Directive.fromJSON (fun _ => none) "t0" sampleDirectiveJson).getBoolParameter
      "enabled" false = true ∧
    Directive.getIntParameter ⟨"d1", "m", "t0", []⟩ "speed" 7 = 7 :=
  ⟨(directive_decode_coercion.2.1 (fun _ => none) "t0").1,
   (directive_decode_coercion.2.1 (fun _ => none) "t0").2,
   directive_decode_coercion.2.2.2.2.1 ⟨"d1", "m", "t0", []⟩ "speed" 7 rfl⟩

/-- Helper: the data-type field is always exactly 7 bytes. -/
theorem dataTypeBytes_length (dataType : List ℕ) : (dataTypeBytes dataType).length = 7 := by
  simp [dataTypeBytes]

/-- Helper: the masked payload has the payload's length. -/
theorem maskedPayload_length (data maskKey : List ℕ) :
    (maskedPayload data maskKey).length = data.length := by
  simp [maskedPayload]

/-- Helper: `getD` of a list built by mapping over `List.range`. -/
theorem getD_range_map (f : ℕ → ℕ) (n i : ℕ) (h : i < n) :
    ((List.range n).map f).getD i 0 = f i := by
  rw [List.getD_eq_getElem _ _ (by simpa using h)]
  simp

/-- C3: for every payload of length at most 65535 and every ASCII
data-type tag (of any length — an over-long tag is truncated, not
rejected), the encoded frame starts with the protocol byte `0x82`,
carries the payload length big-endian at bytes 1-2, and carries at bytes
3-9 the tag upper-cased, truncated to 7 characters and right-padded with
zero bytes to exactly 7 bytes; the tag `"opus"` yields the 7 bytes
`"OPUS"` followed by three zeros. -/
theorem binary_frame_header (data dataType maskKey : List ℕ)
    (hlen : data.length ≤ 65535) (htag : ∀ c ∈ dataType, c < 128)
    (hkey : maskKey.length = 4) :
    ∃ frame, buildFrame data dataType maskKey = Except.ok frame ∧
      frame.getD 0 0 = 0x82 ∧
      frame.getD 1 0 = data.length / 256 ∧
      frame.getD 2 0 = data.length % 256 ∧
      (frame.drop 3).take 7 = dataTypeBytes dataType ∧
      dataTypeBytes dataType
        = (dataType.map asciiUpper).take 7
            ++ List.replicate (7 - min 7 dataType.length) 0 ∧
      dataTypeBytes (asciiCodes "opus") = asciiCodes "OPUS" ++ [0, 0, 0] := by
  refine ⟨[0x82, (data.length >>> 8) % 256, data.length % 256] ++ dataTypeBytes dataType
      ++ maskKey ++ maskedPayload data maskKey, ?_, rfl, ?_, rfl, ?_, ?_, by decide⟩
  · unfold buildFrame
    rw [if_neg (Nat.not_lt.mpr hlen)]
  · have hdiv : data.length >>> 8 = data.length / 256 := by
      rw [Nat.shiftRight_eq_div_pow]
    have hlt : data.length / 256 < 256 := by omega
    simp [hdiv, Nat.mod_eq_of_lt hlt]
  · rw [show ([0x82, (data.length >>> 8) % 256, data.length % 256] ++ dataTypeBytes dataType
        ++ maskKey ++ maskedPayload data maskKey).drop 3
        = dataTypeBytes dataType ++ maskKey ++ maskedPayload data maskKey by
      simp [List.drop_append_of_le_length, List.append_assoc]]
    rw [← dataTypeBytes_length dataType, List.append_assoc, List.take_left]
  · simp [dataTypeBytes, List.length_take]

/-- Witness for the frame-header theorem at a 2-byte payload with the
`"opus"` tag. -/
theorem binary_frame_header_witness :
    ∃ frame, buildFrame [5, 6] (asciiCodes "opus") [9, 8, 7, 6] = Except.ok frame ∧
      frame.getD 0 0 = 0x82 ∧
      frame.getD 1 0 = [5, 6].length / 256 ∧
      frame.getD 2 0 = [5, 6].length % 256 ∧
      (frame.drop 3).take 7 = dataTypeBytes (asciiCodes "opus") ∧
      dataTypeBytes (asciiCodes "opus")
        = ((asciiCodes "opus").map asciiUpper).take 7
            ++ List.replicate (7 - min 7 (asciiCodes "opus").length) 0 ∧
      dataTypeBytes (asciiCodes "opus") = asciiCodes "OPUS" ++ [0, 0, 0] :=
  binary_frame_header [5, 6] (asciiCodes "opus") [9, 8, 7, 6] (by decide) (by decide)
    (by decide)

/-- C1: for every payload of at most 65535 bytes, every data-type tag and
every 4-byte mask key chosen during encoding, the encoded frame has the
payload section at bytes 14 onward, and XOR-ing each of its bytes with
`maskKey[i mod 4]` — the mask key being read back from bytes 10-13 of the
frame itself — reproduces the original payload exactly. -/
theorem binary_frame_roundtrip (data dataType maskKey : List ℕ)
    (hlen : data.length ≤ 65535) (hkey : maskKey.length = 4) :
    ∃ frame, buildFrame data dataType maskKey = Except.ok frame ∧
      frame.length = 14 + data.length ∧
      unmaskPayload frame = data := by
  refine ⟨[0x82, (data.length >>> 8) % 256, data.length % 256] ++ dataTypeBytes dataType
      ++ maskKey ++ maskedPayload data maskKey, ?_, ?_, ?_⟩
  · unfold buildFrame
    rw [if_neg (Nat.not_lt.mpr hlen)]
  · simp [dataTypeBytes_length, hkey, maskedPayload_length] <;> omega
  · have hhdr : ([0x82, (data.length >>> 8) % 256, data.length % 256]
        ++ dataTypeBytes dataType ++ maskKey).length = 14 := by
      simp [dataTypeBytes_length, hkey] <;> omega
    have hflen : ([0x82, (data.length >>> 8) % 256, data.length % 256]
        ++ dataTypeBytes dataType ++ maskKey ++ maskedPayload data maskKey).length
        = 14 + data.length := by
      simp [dataTypeBytes_length, hkey, maskedPayload_length] <;> omega
    apply List.ext_getElem
    · simp [unmaskPayload, dataTypeBytes_length, hkey, maskedPayload_length] <;> omega
    · intro i h1 h2
      have hi : i < data.length := h2
      have e1 : ([0x82, (data.length >>> 8) % 256, data.length % 256]
          ++ dataTypeBytes dataType ++ maskKey ++ maskedPayload data maskKey).getD
            (14 + i) 0 = (maskedPayload data maskKey).getD i 0 := by
        rw [List.append_assoc, List.append_assoc]
        rw [List.getD_append_right _ _ _ _ (by simp <;> omega)]
        rw [List.getD_append_right _ _ _ _ (by simp [dataTypeBytes_length] <;> omega)]
        rw [List.getD_append_right _ _ _ _
          (by simp [hkey, dataTypeBytes_length] <;> omega)]
        congr 1
        simp [dataTypeBytes_length, hkey] <;> omega
      have e2 : ([0x82, (data.length >>> 8) % 256, data.length % 256]
          ++ dataTypeBytes dataType ++ maskKey ++ maskedPayload data maskKey).getD
            (10 + i % 4) 0 = maskKey.getD (i % 4) 0 := by
        rw [List.getD_append _ _ _ _ (by simp [dataTypeBytes_length, hkey] <;> omega)]
        rw [List.append_assoc]
        rw [List.getD_append_right _ _ _ _ (by simp <;> omega)]
        rw [List.getD_append_right _ _ _ _ (by simp [dataTypeBytes_length] <;> omega)]
        congr 1
        simp [dataTypeBytes_length] <;> omega
      have e3 : (maskedPayload data maskKey).getD i 0
          = data.getD i 0 ^^^ maskKey.getD (i % 4) 0 :=
        getD_range_map _ _ _ hi
      simp only [unmaskPayload, List.getElem_map, List.getElem_range]
      rw [e1, e2, e3, Nat.xor_cancel_right]
      exact List.getD_eq_getElem data 0 hi

/-- Witness for the round-trip theorem at a 3-byte payload and a concrete
mask key. -/
theorem binary_frame_roundtrip_witness :
    ∃ frame, buildFrame [1, 2, 3] (asciiCodes "opus") [7, 1, 2, 3] = Except.ok frame ∧
      frame.length = 14 + [1, 2, 3].length ∧
      unmaskPayload frame = [1, 2, 3] :=
  binary_frame_roundtrip [1, 2, 3] (asciiCodes "opus") [7, 1, 2, 3] (by decide) (by decide)

end StreamInd
